import Mathlib

/-!
Verification of the feedback-board front-end of the agentcost dashboard.

The definitions below are a shallow embedding of the client-side state
logic of the feedback page and its attachment uploader: filter, search
and pagination state, the optimistic upvote toggle, the comment
submission sequence, the file-upload validation and settlement, and the
submission form validation and type-switch behaviour.  Pure computations
of the source become Lean functions; React state updates become explicit
state-passing functions; timers become an explicit timed step relation.
-/

/- ── Enumerations (from the API types used by the page) ──────────────── -/

/-- Feedback item type enum. -/
inductive FeedbackType
  | feature_request
  | bug_report
  | model_request
  | general
  | security_report
  | performance_issue
deriving DecidableEq, Repr

/-- Feedback item status enum. -/
inductive FeedbackStatus
  | open
  | under_review
  | needs_info
  | in_progress
  | completed
  | shipped
  | rejected
  | duplicate
deriving DecidableEq, Repr

/-- Feedback item priority enum. -/
inductive FeedbackPriority
  | low
  | medium
  | high
  | critical
deriving DecidableEq, Repr

/-- Sort mode of the feedback list. -/
inductive SortBy
  | recent
  | popular
  | oldest
deriving DecidableEq, Repr

/- ── Filter / pagination state (FeedbackPage) ────────────────────────── -/

/-- The discrete filter state owned by FeedbackPage: the three enum
filters (`none` plays the role of the "all" choice), the sort mode and
the zero-based page index. -/
structure FilterState where
  typeFilter : Option FeedbackType
  statusFilter : Option FeedbackStatus
  priorityFilter : Option FeedbackPriority
  sortBy : SortBy
  page : Nat
deriving DecidableEq, Repr

/-- onChange of the Type FilterSelect: `setTypeFilter(value); setPage(0)`. -/
def onTypeFilterChange (value : Option FeedbackType) (s : FilterState) : FilterState :=
  { s with typeFilter := value, page := 0 }

/-- onChange of the Status FilterSelect: `setStatusFilter(value); setPage(0)`. -/
def onStatusFilterChange (value : Option FeedbackStatus) (s : FilterState) : FilterState :=
  { s with statusFilter := value, page := 0 }

/-- onChange of the Priority FilterSelect: `setPriorityFilter(value); setPage(0)`. -/
def onPriorityFilterChange (value : Option FeedbackPriority) (s : FilterState) : FilterState :=
  { s with priorityFilter := value, page := 0 }

/-- onChange of the Sort FilterSelect: `setSortBy(value)` (and nothing else). -/
def onSortByChange (value : SortBy) (s : FilterState) : FilterState :=
  { s with sortBy := value }

/- ── Pagination (FeedbackPage) ───────────────────────────────────────── -/

/-- `PAGE_SIZE = 12`. -/
def PAGE_SIZE : Nat := 12

/-- `totalPages = Math.max(1, Math.ceil(listTotal / PAGE_SIZE))`; ceiling
division of naturals is `(a + b - 1) / b`. -/
def totalPages (listTotal : Nat) : Nat :=
  max 1 ((listTotal + PAGE_SIZE - 1) / PAGE_SIZE)

/-- The Previous button: `disabled={page === 0}`. -/
def prevDisabled (page : Nat) : Bool :=
  page == 0

/-- The Next button: `disabled={page >= totalPages - 1}`. -/
def nextDisabled (listTotal page : Nat) : Bool :=
  decide (totalPages listTotal - 1 ≤ page)

/-- The natural-number ceiling division by 12 used by `totalPages` agrees
with the mathematical ceiling of the rational quotient. -/
theorem natCeilDiv_twelve_eq_ceil (t : Nat) :
    (t + 11) / 12 = ⌈(t : ℚ) / 12⌉₊ := by
  rcases Nat.eq_zero_or_pos t with ht | ht
  · subst ht
    simp
  · have hq1 : 1 ≤ (t + 11) / 12 := by omega
    symm
    rw [Nat.ceil_eq_iff (by omega)]
    constructor
    · rw [lt_div_iff₀ (by norm_num : (0 : ℚ) < 12)]
      have h : ((t + 11) / 12 - 1) * 12 < t := by omega
      calc (((t + 11) / 12 - 1 : Nat) : ℚ) * 12
          = ((((t + 11) / 12 - 1) * 12 : Nat) : ℚ) := by push_cast; ring
        _ < (t : ℚ) := by exact_mod_cast h
    · rw [div_le_iff₀ (by norm_num : (0 : ℚ) < 12)]
      have h : t ≤ ((t + 11) / 12) * 12 := by omega
      calc (t : ℚ) ≤ ((((t + 11) / 12) * 12 : Nat) : ℚ) := by exact_mod_cast h
        _ = (((t + 11) / 12 : Nat) : ℚ) * 12 := by push_cast; ring

/-- C9: the displayed total page count equals ceiling(total / 12) floored
at 1; Previous is disabled exactly at page 0 and Next exactly when the
page index is at least totalPages − 1; with total = 30 the page count is
3, Next is disabled at page 2 and Previous at page 0 (and neither is
disabled one page earlier). -/
theorem C9_pagination_controls (total page : Nat) :
    totalPages total = max 1 ⌈(total : ℚ) / 12⌉₊ ∧
    (prevDisabled page = true ↔ page = 0) ∧
    (nextDisabled total page = true ↔ totalPages total - 1 ≤ page) ∧
    totalPages 30 = 3 ∧ nextDisabled 30 2 = true ∧ prevDisabled 0 = true ∧
    nextDisabled 30 1 = false ∧ prevDisabled 1 = false := by
  refine ⟨?_, ?_, ?_, by decide, by decide, by decide, by decide, by decide⟩
  · show max 1 ((total + PAGE_SIZE - 1) / PAGE_SIZE) = _
    rw [show PAGE_SIZE = 12 from rfl]
    rw [show total + 12 - 1 = total + 11 by omega]
    rw [natCeilDiv_twelve_eq_ceil total]
  · simp [prevDisabled]
  · simp [nextDisabled]

/-- C1, counterexample: changing the sort mode via the Sort control does
not reset the page index — starting from page 3 with default filters,
selecting the popular sort leaves the page index at 3, not 0. -/
theorem C1_sort_keeps_page_counterexample :
    (onSortByChange SortBy.popular
      { typeFilter := none, statusFilter := none, priorityFilter := none,
        sortBy := SortBy.recent, page := 3 }).page = 3 ∧
    (onSortByChange SortBy.popular
      { typeFilter := none, statusFilter := none, priorityFilter := none,
        sortBy := SortBy.recent, page := 3 }).page ≠ 0 := by
  exact ⟨by decide, by decide⟩

/-- C1 (amended): changing the type, status or priority filter resets the
page index to 0 in the same update, while changing the sort mode updates
the sort and leaves the page index unchanged. -/
theorem C1_filter_changes_reset_page (s : FilterState) (t : Option FeedbackType)
    (st : Option FeedbackStatus) (p : Option FeedbackPriority) (sb : SortBy) :
    (onTypeFilterChange t s).page = 0 ∧
    (onStatusFilterChange st s).page = 0 ∧
    (onPriorityFilterChange p s).page = 0 ∧
    (onSortByChange sb s).page = s.page ∧
    (onSortByChange sb s).sortBy = sb :=
  ⟨rfl, rfl, rfl, rfl, rfl⟩

/- ── Debounced search (FeedbackPage) ─────────────────────────────────── -/

/-- Embedding of the JavaScript string `trim()`: drop whitespace from
both ends. -/
def jsTrim (s : String) : String :=
  String.mk (((s.data.dropWhile Char.isWhitespace).reverse.dropWhile
    Char.isWhitespace).reverse)

/-- State of the debounced search: the live input, the committed search
value, the page index, and the pending debounce timer of the effect on
`searchInput` — its deadline (schedule time + 400) together with the
input value its closure captured. -/
structure SearchState where
  searchInput : String
  searchValue : String
  page : Nat
  timer : Option (Nat × String)
deriving DecidableEq, Repr

/-- The debounce timeout handler firing when its deadline has passed:
`setSearchValue(searchInput.trim()); setPage(0)`.  Observing the state at
time `now` fires the pending timer exactly when its deadline is due. -/
def observeAt (now : Nat) (s : SearchState) : SearchState :=
  match s.timer with
  | some (deadline, captured) =>
      if deadline ≤ now then
        { s with searchValue := jsTrim captured, page := 0, timer := none }
      else s
  | none => s

/-- A keystroke at time `t` replacing the input with `value`: any due
timer fires first; the effect cleanup clears the pending timeout and the
re-run schedules a new 400 ms timeout over the new input. -/
def keystroke (t : Nat) (value : String) (s : SearchState) : SearchState :=
  let s := observeAt t s
  { s with searchInput := value, timer := some (t + 400, value) }

/-- Run a time-stamped keystroke sequence from a given state. -/
def runKeystrokes (events : List (Nat × String)) (s : SearchState) : SearchState :=
  events.foldl (fun acc e => keystroke e.1 e.2 acc) s

/-- After any keystroke sequence ending at time `t` with value `v`, the
pending timer is exactly the one scheduled by that last keystroke. -/
theorem runKeystrokes_timer (events : List (Nat × String)) (t : Nat) (v : String)
    (s : SearchState) :
    (runKeystrokes (events ++ [(t, v)]) s).timer = some (t + 400, v) ∧
    (runKeystrokes (events ++ [(t, v)]) s).searchInput = v := by
  unfold runKeystrokes
  rw [List.foldl_append]
  constructor <;> rfl

/-- C2, counterexample: the commit stores the trimmed input, not the
typed string itself — a single keystroke producing the two-character
string "a " settles, 400 ms later, to the committed value "a", which
differs from the final typed string. -/
theorem C2_trim_counterexample :
    (observeAt 400 (runKeystrokes [(0, "a ")]
      { searchInput := "", searchValue := "", page := 7, timer := none })).searchValue
      = "a" ∧
    (observeAt 400 (runKeystrokes [(0, "a ")]
      { searchInput := "", searchValue := "", page := 7, timer := none })).searchValue
      ≠ "a " := by
  exact ⟨by decide, by decide⟩

/-- C2 (amended): for every keystroke sequence, the committed search
value does not change as long as fewer than 400 ms have elapsed since the
last keystroke, and once 400 ms have passed with no further input the
committed value equals the final typed string trimmed of surrounding
whitespace and the page index is 0. -/
theorem C2_debounced_search (events : List (Nat × String)) (t tEarly tLate : Nat)
    (v : String) (s : SearchState)
    (hEarly : tEarly < t + 400) (hLate : t + 400 ≤ tLate) :
    (observeAt tEarly (runKeystrokes (events ++ [(t, v)]) s)).searchValue
      = (runKeystrokes (events ++ [(t, v)]) s).searchValue ∧
    (observeAt tLate (runKeystrokes (events ++ [(t, v)]) s)).searchValue = jsTrim v ∧
    (observeAt tLate (runKeystrokes (events ++ [(t, v)]) s)).page = 0 := by
  have htimer := runKeystrokes_timer events t v s
  refine ⟨?_, ?_, ?_⟩
  · unfold observeAt
    rw [htimer.1]
    simp only
    rw [if_neg (by omega)]
  · unfold observeAt
    rw [htimer.1]
    simp only
    rw [if_pos (by omega)]
  · unfold observeAt
    rw [htimer.1]
    simp only
    rw [if_pos (by omega)]

/-- C2 witness: typing "a", "ab", "abc" at 100 ms intervals, observed
150 ms after the last keystroke the committed value is still the initial
one, and observed 400 ms after the last keystroke it is "abc" with the
page index reset to 0. -/
theorem C2_debounced_search_witness :
    50 < 200 + 400 ∧ 200 + 400 ≤ 600 ∧
    ((observeAt 50 (runKeystrokes ([(0, "a"), (100, "ab")] ++ [(200, "abc")])
      { searchInput := "", searchValue := "", page := 4, timer := none })).searchValue
      = (runKeystrokes ([(0, "a"), (100, "ab")] ++ [(200, "abc")])
      { searchInput := "", searchValue := "", page := 4, timer := none }).searchValue ∧
    (observeAt 600 (runKeystrokes ([(0, "a"), (100, "ab")] ++ [(200, "abc")])
      { searchInput := "", searchValue := "", page := 4, timer := none })).searchValue
      = jsTrim "abc" ∧
    (observeAt 600 (runKeystrokes ([(0, "a"), (100, "ab")] ++ [(200, "abc")])
      { searchInput := "", searchValue := "", page := 4, timer := none })).page = 0) :=
  ⟨by decide, by decide,
    C2_debounced_search [(0, "a"), (100, "ab")] 200 50 600 "abc"
      { searchInput := "", searchValue := "", page := 4, timer := none }
      (by decide) (by decide)⟩

/- ── Comment submission (handleSubmitComment) ────────────────────────── -/

/-- An observable step of `handleSubmitComment` in order of execution. -/
inductive CommentStep
  | postComment (feedbackId comment : String) (userName : Option String)
  | fetchComments (feedbackId : String)
  | replaceCache (feedbackId : String)
  | clearDraft (feedbackId : String)
  | refetchList
deriving DecidableEq, Repr

/-- Look up an item's draft in the per-item draft map:
`commentDrafts[feedbackId] || ""`. -/
def draftOf (drafts : List (String × String)) (feedbackId : String) : String :=
  match drafts.find? (fun p => p.1 == feedbackId) with
  | some p => p.2
  | none => ""

/-- `user?.name || undefined`: the submitter name sent with a comment. -/
def submitterName (user : Option String) : Option String :=
  match user with
  | none => none
  | some n => if n = "" then none else some n

/-- The step trace of `handleSubmitComment` on its success path: an empty
trimmed draft performs nothing; otherwise the comment is posted, the full
comment list for the item is re-fetched and replaces the cache entry, the
item's draft is cleared, and finally the list is re-fetched. -/
def handleSubmitCommentTrace (user : Option String) (drafts : List (String × String))
    (feedbackId : String) : List CommentStep :=
  let comment := jsTrim (draftOf drafts feedbackId)
  if comment = "" then []
  else
    [CommentStep.postComment feedbackId comment (submitterName user),
     CommentStep.fetchComments feedbackId,
     CommentStep.replaceCache feedbackId,
     CommentStep.clearDraft feedbackId,
     CommentStep.refetchList]

/-- The state effect of a successful `handleSubmitComment` on the comment
cache and the draft map: the fetched comment list replaces the cache
entry wholesale, and the item's draft becomes the empty string. -/
def submitCommentState (cache : List (String × List String))
    (drafts : List (String × String)) (feedbackId : String)
    (fetched : List String) :
    List (String × List String) × List (String × String) :=
  if jsTrim (draftOf drafts feedbackId) = "" then (cache, drafts)
  else
    ((feedbackId, fetched) :: cache.filter (fun p => p.1 ≠ feedbackId),
     (feedbackId, "") :: drafts.filter (fun p => p.1 ≠ feedbackId))

/-- C3, counterexample: for the draft "thanks!" on item "f1" the emitted
step sequence clears the draft before the list refetch, not after it as
the claim orders the steps. -/
theorem C3_order_counterexample :
    handleSubmitCommentTrace (some "u") [("f1", "thanks!")] "f1"
      ≠ [CommentStep.postComment "f1" "thanks!" (some "u"),
         CommentStep.fetchComments "f1",
         CommentStep.replaceCache "f1",
         CommentStep.refetchList,
         CommentStep.clearDraft "f1"] := by
  decide

/-- C3 (amended): a submission with non-empty trimmed draft text performs,
in this strict order: send the comment (with the optional submitter
name), re-fetch the item's full comment list replacing the cache entry,
clear the item's local draft text, and then trigger the list refetch; a
submission with empty trimmed draft text performs none of these steps. -/
theorem C3_comment_submit_order (user : Option String)
    (drafts drafts2 : List (String × String)) (feedbackId : String)
    (h : jsTrim (draftOf drafts feedbackId) ≠ "")
    (h2 : jsTrim (draftOf drafts2 feedbackId) = "") :
    handleSubmitCommentTrace user drafts feedbackId
      = [CommentStep.postComment feedbackId (jsTrim (draftOf drafts feedbackId))
          (submitterName user),
         CommentStep.fetchComments feedbackId,
         CommentStep.replaceCache feedbackId,
         CommentStep.clearDraft feedbackId,
         CommentStep.refetchList] ∧
    handleSubmitCommentTrace user drafts2 feedbackId = [] := by
  constructor
  · unfold handleSubmitCommentTrace
    rw [if_neg h]
  · unfold handleSubmitCommentTrace
    rw [if_pos h2]

/-- C3 witness at concrete inputs: a " hi " draft on item f1 and an
all-whitespace draft on the same item. -/
theorem C3_comment_submit_order_witness :
    handleSubmitCommentTrace (some "u") [("f1", " hi ")] "f1"
      = [CommentStep.postComment "f1" (jsTrim (draftOf [("f1", " hi ")] "f1"))
          (submitterName (some "u")),
         CommentStep.fetchComments "f1",
         CommentStep.replaceCache "f1",
         CommentStep.clearDraft "f1",
         CommentStep.refetchList] ∧
    handleSubmitCommentTrace (some "u") [("f1", "  ")] "f1" = [] :=
  C3_comment_submit_order (some "u") [("f1", " hi ")] [("f1", "  ")] "f1"
    (by decide) (by decide)

/- ── Optimistic upvote toggle (handleUpvote) ─────────────────────────── -/

/-- The fields of a feedback item the upvote logic touches (id, the
upvote counter and the viewer's upvote flag), plus the comment counter
carried along. -/
structure FeedbackItem where
  id : String
  title : String
  upvotes : Nat
  user_has_upvoted : Bool
  comment_count : Nat
deriving DecidableEq, Repr

/-- The optimistic per-item patch inside `setItems`: an item with a
different id is returned unchanged; the matching item gets its flag
toggled and its counter moved by +1 (toggling on) or −1 floored at 0
(toggling off). -/
def upvotePatch (feedbackId : String) (item : FeedbackItem) : FeedbackItem :=
  if item.id ≠ feedbackId then item
  else
    let toggled := !item.user_has_upvoted
    { item with
      user_has_upvoted := toggled,
      upvotes := if toggled then item.upvotes + 1 else max 0 (item.upvotes - 1) }

/-- `handleUpvote` before any network response: with no authenticated
user it changes nothing and sends no request (the boolean result); with a
user it applies the optimistic patch to every item and sends the toggle
request. -/
def handleUpvoteOptimistic (user : Option String) (feedbackId : String)
    (items : List FeedbackItem) : List FeedbackItem × Bool :=
  match user with
  | none => (items, false)
  | some _ => (items.map (upvotePatch feedbackId), true)

/-- C4: with an authenticated user the toggle immediately patches the
displayed list item-wise and sends the request; the matching item has its
`user_has_upvoted` flag flipped and its counter moved by +1 when the flag
turns true or by −1 floored at 0 when it turns false; a non-matching item
is untouched; without an authenticated user the list is unchanged and no
request is sent. -/
theorem C4_optimistic_upvote (u feedbackId : String) (items : List FeedbackItem)
    (item other : FeedbackItem)
    (hid : item.id = feedbackId) (hother : other.id ≠ feedbackId) :
    (handleUpvoteOptimistic (some u) feedbackId items).2 = true ∧
    (handleUpvoteOptimistic (some u) feedbackId items).1
      = items.map (upvotePatch feedbackId) ∧
    (upvotePatch feedbackId item).user_has_upvoted = !item.user_has_upvoted ∧
    (upvotePatch feedbackId item).upvotes
      = (if item.user_has_upvoted then max 0 (item.upvotes - 1)
         else item.upvotes + 1) ∧
    upvotePatch feedbackId other = other ∧
    handleUpvoteOptimistic none feedbackId items = (items, false) := by
  refine ⟨rfl, rfl, ?_, ?_, ?_, rfl⟩
  · unfold upvotePatch
    rw [if_neg (by simp [hid])]
  · unfold upvotePatch
    rw [if_neg (by simp [hid])]
    cases h : item.user_has_upvoted <;> simp [h]
  · unfold upvotePatch
    rw [if_pos hother]

/-- C4 witness: the concrete item with `user_has_upvoted = false` and
`upvotes = 5` (so the patch yields the flag `!false = true` and the count
`5 + 1 = 6`), a non-matching sibling, and the unauthenticated case. -/
theorem C4_optimistic_upvote_witness :
    (handleUpvoteOptimistic (some "u") "f1"
      [{ id := "f1", title := "t", upvotes := 5, user_has_upvoted := false,
         comment_count := 0 }]).2 = true ∧
    (handleUpvoteOptimistic (some "u") "f1"
      [{ id := "f1", title := "t", upvotes := 5, user_has_upvoted := false,
         comment_count := 0 }]).1
      = [{ id := "f1", title := "t", upvotes := 5, user_has_upvoted := false,
           comment_count := 0 }].map (upvotePatch "f1") ∧
    (upvotePatch "f1"
      { id := "f1", title := "t", upvotes := 5, user_has_upvoted := false,
        comment_count := 0 }).user_has_upvoted = !false ∧
    (upvotePatch "f1"
      { id := "f1", title := "t", upvotes := 5, user_has_upvoted := false,
        comment_count := 0 }).upvotes
      = (if false then max 0 (5 - 1) else 5 + 1) ∧
    upvotePatch "f1"
      { id := "f2", title := "s", upvotes := 2, user_has_upvoted := true,
        comment_count := 1 }
      = { id := "f2", title := "s", upvotes := 2, user_has_upvoted := true,
          comment_count := 1 } ∧
    handleUpvoteOptimistic none "f1"
      [{ id := "f1", title := "t", upvotes := 5, user_has_upvoted := false,
         comment_count := 0 }]
      = ([{ id := "f1", title := "t", upvotes := 5, user_has_upvoted := false,
            comment_count := 0 }], false) :=
  C4_optimistic_upvote "u" "f1"
    [{ id := "f1", title := "t", upvotes := 5, user_has_upvoted := false,
       comment_count := 0 }]
    { id := "f1", title := "t", upvotes := 5, user_has_upvoted := false,
      comment_count := 0 }
    { id := "f2", title := "s", upvotes := 2, user_has_upvoted := true,
      comment_count := 1 }
    rfl (by decide)

/- ── Attachment uploader: constants and validation (FileUpload) ──────── -/

/-- `ALLOWED_EXTENSIONS` of the uploader. -/
def ALLOWED_EXTENSIONS : List String :=
  [".png", ".jpg", ".jpeg", ".gif", ".webp", ".pdf", ".txt", ".log", ".json", ".csv"]

/-- `MAX_FILE_SIZE = 10 * 1024 * 1024`. -/
def MAX_FILE_SIZE : Nat := 10 * 1024 * 1024

/-- `MAX_FILES = 3`. -/
def MAX_FILES : Nat := 3

/-- The suffix of a character list starting at its last dot, if any
(`name.lastIndexOf(".")` followed by `name.slice(dot)`). -/
def lastDotSuffix : List Char → Option (List Char)
  | [] => none
  | c :: cs =>
    match lastDotSuffix cs with
    | some s => some s
    | none => if c = '.' then some (c :: cs) else none

/-- `getExtension`: the (dot-inclusive) suffix from the last dot of the
file name, lowercased; the empty string when the name has no dot. -/
def getExtension (name : String) : String :=
  match lastDotSuffix name.data with
  | some s => String.mk (s.map Char.toLower)
  | none => ""

/-- A file as far as the uploader's validation is concerned: its name and
its size in bytes. -/
structure FileInfo where
  name : String
  size : Nat
deriving DecidableEq, Repr

/-- The per-file validation loop of `uploadFiles`: the first file whose
extension is not allow-listed or whose size exceeds the ceiling yields
its error message; `none` means every file passed. -/
def checkFiles : List FileInfo → Option String
  | [] => none
  | f :: rest =>
    let ext := getExtension f.name
    if !(ALLOWED_EXTENSIONS.contains ext) then
      some ("File type " ++ ext ++ " is not allowed")
    else if f.size > MAX_FILE_SIZE then
      some (f.name ++ " exceeds 10.0 MB limit")
    else checkFiles rest

/-- A single file passes validation when its extension is allow-listed
and its size is within the ceiling. -/
def validFile (f : FileInfo) : Bool :=
  ALLOWED_EXTENSIONS.contains (getExtension f.name) &&
  decide (f.size ≤ MAX_FILE_SIZE)

/-- The batch-acceptance logic of `uploadFiles`: reject outright when no
slot remains, otherwise truncate to the remaining slots and validate every
file of the truncated batch before any upload; `ok` holds the batch whose
uploads are then issued. -/
def uploadFiles (attachmentsCount : Nat) (files : List FileInfo) :
    Except String (List FileInfo) :=
  let remaining : Int := (MAX_FILES : Int) - (attachmentsCount : Int)
  if remaining ≤ 0 then Except.error "Maximum 3 files allowed"
  else
    let batch := files.take remaining.toNat
    match checkFiles batch with
    | some msg => Except.error msg
    | none => Except.ok batch

/-- The uploads issued by a batch decision: none on rejection, one per
batch file on acceptance. -/
def uploadsIssued (r : Except String (List FileInfo)) : List FileInfo :=
  match r with
  | Except.error _ => []
  | Except.ok batch => batch

/-- The validation loop passes exactly when every file of the list is
individually valid. -/
theorem checkFiles_none_iff (files : List FileInfo) :
    checkFiles files = none ↔ files.all validFile = true := by
  induction files with
  | nil => simp [checkFiles]
  | cons f rest ih =>
    by_cases hext : getExtension f.name ∈ ALLOWED_EXTENSIONS
    · by_cases hs : f.size ≤ MAX_FILE_SIZE
      · have hlt : ¬ MAX_FILE_SIZE < f.size := Nat.not_lt.mpr hs
        simp [checkFiles, validFile, hext, hs, hlt, ih]
      · have hlt : MAX_FILE_SIZE < f.size := Nat.lt_of_not_le hs
        simp [checkFiles, validFile, hext, hs, hlt]
    · simp [checkFiles, validFile, hext]

/-- C5: when the pre-existing attachment count has reached the maximum
the whole batch is rejected with an error and no upload is issued;
otherwise the batch is truncated to the remaining slots and validated
file-by-file — if every truncated file is valid the batch is accepted as
a whole, and the first invalid file rejects the batch with its message
and zero uploads issued; passing validation is exactly every file of the
truncated batch being valid. -/
theorem C5_upload_gate (count : Nat) (files : List FileInfo) (msg : String) :
    (MAX_FILES ≤ count →
      uploadFiles count files = Except.error "Maximum 3 files allowed" ∧
      uploadsIssued (uploadFiles count files) = []) ∧
    (count < MAX_FILES →
      checkFiles (files.take (MAX_FILES - count)) = none →
      uploadFiles count files = Except.ok (files.take (MAX_FILES - count))) ∧
    (count < MAX_FILES →
      checkFiles (files.take (MAX_FILES - count)) = some msg →
      uploadFiles count files = Except.error msg ∧
      uploadsIssued (uploadFiles count files) = []) ∧
    (checkFiles (files.take (MAX_FILES - count)) = none ↔
      (files.take (MAX_FILES - count)).all validFile = true) := by
  have htn : ((MAX_FILES : Int) - (count : Int)).toNat = MAX_FILES - count := by
    simp only [MAX_FILES]
    omega
  refine ⟨?_, ?_, ?_, checkFiles_none_iff _⟩
  · intro hfull
    have hfull3 : 3 ≤ count := by simpa [MAX_FILES] using hfull
    have hcond : (MAX_FILES : Int) - (count : Int) ≤ 0 := by
      simp only [MAX_FILES]
      omega
    have h1 : uploadFiles count files = Except.error "Maximum 3 files allowed" := by
      simp only [uploadFiles]
      rw [if_pos hcond]
    exact ⟨h1, by rw [h1]; rfl⟩
  · intro hroom hok
    have hroom3 : count < 3 := by simpa [MAX_FILES] using hroom
    have hcond : ¬ ((MAX_FILES : Int) - (count : Int) ≤ 0) := by
      simp only [MAX_FILES]
      omega
    simp only [uploadFiles]
    rw [if_neg hcond, htn, hok]
  · intro hroom hbad
    have hroom3 : count < 3 := by simpa [MAX_FILES] using hroom
    have hcond : ¬ ((MAX_FILES : Int) - (count : Int) ≤ 0) := by
      simp only [MAX_FILES]
      omega
    have h1 : uploadFiles count files = Except.error msg := by
      simp only [uploadFiles]
      rw [if_neg hcond, htn, hbad]
    exact ⟨h1, by rw [h1]; rfl⟩

/-- C5 witness: a full attachment list rejects a valid file; two slots
left accept a two-file truncation of a three-file batch; a batch whose
first file has a disallowed extension is rejected with zero uploads. -/
theorem C5_upload_gate_witness :
    (uploadFiles 3 [{ name := "a.png", size := 100 }]
        = Except.error "Maximum 3 files allowed" ∧
      uploadsIssued (uploadFiles 3 [{ name := "a.png", size := 100 }]) = []) ∧
    uploadFiles 1 [{ name := "a.png", size := 100 }, { name := "b.pdf", size := 5 },
        { name := "c.txt", size := 7 }]
      = Except.ok [{ name := "a.png", size := 100 }, { name := "b.pdf", size := 5 }] ∧
    (uploadFiles 0 [{ name := "virus.exe", size := 10 }, { name := "a.png", size := 1 }]
        = Except.error "File type .exe is not allowed" ∧
      uploadsIssued (uploadFiles 0
        [{ name := "virus.exe", size := 10 }, { name := "a.png", size := 1 }]) = []) := by
  refine ⟨(C5_upload_gate 3 [{ name := "a.png", size := 100 }] "").1 (by decide),
    ?_, ?_⟩
  · have h := (C5_upload_gate 1 [{ name := "a.png", size := 100 },
      { name := "b.pdf", size := 5 }, { name := "c.txt", size := 7 }] "").2.1
      (by decide) (by decide)
    exact h
  · have h := (C5_upload_gate 0 [{ name := "virus.exe", size := 10 },
      { name := "a.png", size := 1 }] "File type .exe is not allowed").2.2.1
      (by decide) (by decide)
    exact h

/-- When a name has no dot there is no last-dot suffix. -/
theorem lastDotSuffix_of_no_dot (cs : List Char) (h : ('.' : Char) ∉ cs) :
    lastDotSuffix cs = none := by
  induction cs with
  | nil => rfl
  | cons c rest ih =>
    have hcne : ¬(c = '.') := fun hc => h (List.mem_cons.mpr (Or.inl hc.symm))
    unfold lastDotSuffix
    rw [ih (fun hm => h (List.mem_cons_of_mem c hm))]
    simp only
    rw [if_neg hcne]

/-- C10: extension validation is case-insensitive — the extension is the
lowercased suffix from the last dot of the name, so "photo.PNG" yields
".png" and is accepted, the last dot wins ("a.PNG.txt" yields ".txt"),
while a name with no dot yields the empty extension, which is not in the
allow-list, so such a file always fails validation. -/
theorem C10_extension_case_insensitive (f : FileInfo)
    (hnd : ('.' : Char) ∉ f.name.data) :
    getExtension "photo.PNG" = ".png" ∧
    validFile { name := "photo.PNG", size := 100 } = true ∧
    getExtension "a.PNG.txt" = ".txt" ∧
    getExtension f.name = "" ∧
    ALLOWED_EXTENSIONS.contains "" = false ∧
    validFile f = false := by
  have hext : getExtension f.name = "" := by
    unfold getExtension
    rw [lastDotSuffix_of_no_dot f.name.data hnd]
  have hc : ALLOWED_EXTENSIONS.contains "" = false := by decide
  refine ⟨by decide, by decide, by decide, hext, hc, ?_⟩
  unfold validFile
  rw [hext, hc, Bool.false_and]

/-- C10 witness: a dotless file name. -/
theorem C10_extension_case_insensitive_witness :
    getExtension "photo.PNG" = ".png" ∧
    validFile { name := "photo.PNG", size := 100 } = true ∧
    getExtension "a.PNG.txt" = ".txt" ∧
    getExtension "README" = "" ∧
    ALLOWED_EXTENSIONS.contains "" = false ∧
    validFile { name := "README", size := 4 } = false :=
  C10_extension_case_insensitive { name := "README", size := 4 } (by decide)

/- ── Attachment uploader: settlement (FileUpload) ────────────────────── -/

/-- `AttachmentMeta` as returned by the upload endpoint. -/
structure AttachmentMeta where
  id : String
  name : String
  stored_name : String
  mimeType : String
  size : Nat
  storage : String
  path : String
deriving DecidableEq, Repr

/-- The result array of the all-settled join, keyed by batch index: a
slot is `none` while its upload is pending and `some outcome` once it has
settled; `outcome` is `some meta` for a fulfilled upload and `none` for a
rejected one.  The uploads resolve one by one in the order given by
`order`, each filling only its own slot. -/
def settleSlots (outcomes : List (Option AttachmentMeta)) (order : List Nat) :
    Nat → Option (Option AttachmentMeta) :=
  order.foldl (fun slots i => Function.update slots i (outcomes.get? i)) (fun _ => none)

/-- The settled results read off in batch order, as `Promise.allSettled`
returns them. -/
def settledResults (outcomes : List (Option AttachmentMeta)) (order : List Nat) :
    List (Option (Option AttachmentMeta)) :=
  (List.range outcomes.length).map (settleSlots outcomes order)

/-- `results.filter(fulfilled).map(value)`: the successful metadata in
batch order; a still-pending slot contributes nothing. -/
def successfulOf (results : List (Option (Option AttachmentMeta))) :
    List AttachmentMeta :=
  results.filterMap (fun r => r.getD none)

/-- The caller's attachment list after the batch settles:
`onChange([...attachments, ...successful])`, invoked only when at least
one upload succeeded. -/
def finalAttachments (attachments : List AttachmentMeta)
    (outcomes : List (Option AttachmentMeta)) (order : List Nat) :
    List AttachmentMeta :=
  let successful := successfulOf (settledResults outcomes order)
  if 0 < successful.length then attachments ++ successful else attachments

/-- A slot not named by any resolution step keeps its value. -/
theorem settleSlots_not_mem (outcomes : List (Option AttachmentMeta))
    (order : List Nat) (slots : Nat → Option (Option AttachmentMeta)) (j : Nat)
    (h : j ∉ order) :
    order.foldl (fun s i => Function.update s i (outcomes.get? i)) slots j
      = slots j := by
  induction order generalizing slots with
  | nil => rfl
  | cons i rest ih =>
    have hji : j ≠ i := fun hj => h (List.mem_cons.mpr (Or.inl hj))
    have hjr : j ∉ rest := fun hj => h (List.mem_cons.mpr (Or.inr hj))
    show List.foldl _ (Function.update slots i (outcomes.get? i)) rest j = slots j
    rw [ih (Function.update slots i (outcomes.get? i)) hjr]
    exact Function.update_noteq hji _ slots

/-- A slot named by some resolution step ends up holding its own
outcome, whatever the resolution order. -/
theorem settleSlots_mem (outcomes : List (Option AttachmentMeta))
    (order : List Nat) (slots : Nat → Option (Option AttachmentMeta)) (j : Nat)
    (h : j ∈ order) :
    order.foldl (fun s i => Function.update s i (outcomes.get? i)) slots j
      = outcomes.get? j := by
  induction order generalizing slots with
  | nil => exact absurd h (List.not_mem_nil j)
  | cons i rest ih =>
    show List.foldl _ (Function.update slots i (outcomes.get? i)) rest j = _
    by_cases hr : j ∈ rest
    · exact ih _ hr
    · have hji : j = i := by
        rcases List.mem_cons.mp h with h1 | h1
        · exact h1
        · exact absurd h1 hr
      rw [settleSlots_not_mem outcomes rest _ j hr]
      subst hji
      exact Function.update_same j _ slots

/-- Reading a list through its positions recovers the list. -/
theorem range_map_get (l : List (Option AttachmentMeta)) :
    (List.range l.length).map (fun i => l.get? i) = l.map some := by
  induction l with
  | nil => rfl
  | cons a t ih =>
    rw [List.length_cons, List.range_succ_eq_map, List.map_cons, List.map_map]
    have h2 : ((fun i => (a :: t).get? i) ∘ Nat.succ) = fun i => t.get? i := by
      funext i
      rfl
    rw [h2, ih]
    rfl

/-- C6: whenever every batch index eventually settles, the settled result
array equals the outcome of each upload at its own index, regardless of
the resolution order; hence the caller's attachment list after settlement
is exactly the previous list with the successful uploads' metadata
appended in batch order — each success exactly once, counted on top of
its occurrences in the previous list — and failed uploads contribute
nothing and remove nothing. -/
theorem C6_upload_settlement (attachments : List AttachmentMeta)
    (outcomes : List (Option AttachmentMeta)) (order : List Nat)
    (m : AttachmentMeta)
    (hcover : ∀ j, j < outcomes.length → j ∈ order) :
    settledResults outcomes order = outcomes.map some ∧
    finalAttachments attachments outcomes order
      = attachments ++ outcomes.filterMap id ∧
    (finalAttachments attachments outcomes order).count m
      = attachments.count m + (outcomes.filterMap id).count m := by
  have hres : settledResults outcomes order = outcomes.map some := by
    unfold settledResults
    have hcong : ∀ i ∈ List.range outcomes.length,
        settleSlots outcomes order i = outcomes.get? i := by
      intro i hi
      exact settleSlots_mem outcomes order _ i (hcover i (List.mem_range.mp hi))
    rw [List.map_congr_left hcong, range_map_get]
  have hsucc : successfulOf (settledResults outcomes order)
      = outcomes.filterMap id := by
    rw [hres]
    unfold successfulOf
    rw [List.filterMap_map]
    congr 1
  have hfin : finalAttachments attachments outcomes order
      = attachments ++ outcomes.filterMap id := by
    unfold finalAttachments
    rw [hsucc]
    by_cases hlen : 0 < (outcomes.filterMap id).length
    · rw [if_pos hlen]
    · rw [if_neg hlen]
      have : outcomes.filterMap id = [] := by
        cases h : outcomes.filterMap id with
        | nil => rfl
        | cons x xs => rw [h] at hlen; simp at hlen
      rw [this, List.append_nil]
  refine ⟨hres, hfin, ?_⟩
  rw [hfin, List.count_append]

/-- A concrete already-attached file for the settlement witness. -/
def metaPrev : AttachmentMeta :=
  { id := "0", name := "prev.txt", stored_name := "s0", mimeType := "text/plain",
    size := 1, storage := "disk", path := "p0" }

/-- A concrete successful upload for the settlement witness. -/
def metaA : AttachmentMeta :=
  { id := "1", name := "a.png", stored_name := "s1", mimeType := "image/png",
    size := 10, storage := "disk", path := "p1" }

/-- Another concrete successful upload for the settlement witness. -/
def metaB : AttachmentMeta :=
  { id := "2", name := "b.pdf", stored_name := "s2", mimeType := "application/pdf",
    size := 20, storage := "disk", path := "p2" }

/-- C6 witness: three uploads (success, failure, success) resolving in
the order third, first, second still settle index-wise and append exactly
the two successes in batch order. -/
theorem C6_upload_settlement_witness :
    settledResults [some metaA, none, some metaB] [2, 0, 1]
      = [some metaA, none, some metaB].map some ∧
    finalAttachments [metaPrev] [some metaA, none, some metaB] [2, 0, 1]
      = [metaPrev] ++ [some metaA, none, some metaB].filterMap id ∧
    (finalAttachments [metaPrev] [some metaA, none, some metaB] [2, 0, 1]).count metaA
      = [metaPrev].count metaA +
        ([some metaA, none, some metaB].filterMap id).count metaA := by
  exact C6_upload_settlement [metaPrev] [some metaA, none, some metaB] [2, 0, 1]
    metaA (by decide)

/- ── Submission form validation (SubmitFeedbackModal) ────────────────── -/

/-- `modelInfoRequired`: the form is a model request and both the model
name and the provider are empty after trimming. -/
def modelInfoRequired (formType : FeedbackType) (modelName modelProvider : String) :
    Bool :=
  formType == FeedbackType.model_request &&
  (jsTrim modelName).length == 0 &&
  (jsTrim modelProvider).length == 0

/-- `canSubmit`: no submission in flight, trimmed title of length at
least 3, trimmed description of length at least 10, and the model-info
requirement satisfied. -/
def canSubmit (isSubmitting : Bool) (formType : FeedbackType)
    (title description modelName modelProvider : String) : Bool :=
  !isSubmitting &&
  decide (3 ≤ (jsTrim title).length) &&
  decide (10 ≤ (jsTrim description).length) &&
  !(modelInfoRequired formType modelName modelProvider)

/-- C7: the submit control is enabled exactly when no submission is in
flight, the trimmed title has length at least 3, the trimmed description
has length at least 10, and — for `model_request` only — at least one of
the model name and the model provider is non-empty after trimming; title
"ab" keeps submit disabled, "abc" with a 10-character description enables
it for a non-model type, and a model request with both model fields empty
stays disabled however valid the rest is. -/
theorem C7_submit_gate (isSubmitting : Bool) (formType : FeedbackType)
    (title description modelName modelProvider : String) :
    (canSubmit isSubmitting formType title description modelName modelProvider = true ↔
      (isSubmitting = false ∧ 3 ≤ (jsTrim title).length ∧
        10 ≤ (jsTrim description).length ∧
        (formType = FeedbackType.model_request →
          (jsTrim modelName).length ≠ 0 ∨ (jsTrim modelProvider).length ≠ 0))) ∧
    canSubmit false FeedbackType.feature_request "ab" "0123456789" "" "" = false ∧
    canSubmit false FeedbackType.feature_request "abc" "0123456789" "" "" = true ∧
    canSubmit false FeedbackType.model_request "abc" "0123456789" "" "" = false ∧
    canSubmit false FeedbackType.model_request "abc" "0123456789" "gpt-4o" "" = true ∧
    canSubmit true FeedbackType.feature_request "abc" "0123456789" "" "" = false := by
  refine ⟨?_, by decide, by decide, by decide, by decide, by decide⟩
  unfold canSubmit modelInfoRequired
  cases isSubmitting <;> cases formType <;>
    simp [decide_eq_true_iff, and_assoc, or_iff_not_imp_left]

/- ── Submission form state and type switch (SubmitFeedbackModal) ─────── -/

/-- The form state of SubmitFeedbackModal relevant to the type switch:
the selected type, the text fields, the per-type metadata map (as an
association list), the reference-link text, the environment selector and
the attached files. -/
structure ModalForm where
  formType : FeedbackType
  title : String
  description : String
  modelName : String
  modelProvider : String
  name : String
  email : String
  meta : List (String × String)
  referenceUrl : String
  environment : String
  fileAttachments : List AttachmentMeta
deriving DecidableEq, Repr

/-- `updateMeta(key, value)`: upsert of one key of the metadata map. -/
def updateMeta (key value : String) (f : ModalForm) : ModalForm :=
  { f with meta := (key, value) :: f.meta.filter (fun p => p.1 ≠ key) }

/-- The effect with dependency `[formType]`: reset the per-type fields on
a category switch — metadata, reference link and attached files — keeping
everything else. -/
def formTypeResetEffect (f : ModalForm) : ModalForm :=
  { f with meta := [], referenceUrl := "", fileAttachments := [] }

/-- Selecting a type in the Type select: `setFormType(value)`; the reset
effect re-runs exactly when the `formType` dependency actually changed. -/
def switchFormType (t : FeedbackType) (f : ModalForm) : ModalForm :=
  if t = f.formType then f
  else formTypeResetEffect { f with formType := t }

/-- C8: every change of the selected feedback type clears the
type-specific metadata map, the reference-link text and the
attached-files list, while the title, description, contact name and email
(and the model fields) keep their previous values; in particular setting
a metadata field on a model request, switching to bug report and back
yields empty metadata. -/
theorem C8_type_switch_clears (f : ModalForm) (t : FeedbackType) (v : String)
    (ht : t ≠ f.formType) :
    (switchFormType t f).meta = [] ∧
    (switchFormType t f).referenceUrl = "" ∧
    (switchFormType t f).fileAttachments = [] ∧
    (switchFormType t f).formType = t ∧
    (switchFormType t f).title = f.title ∧
    (switchFormType t f).description = f.description ∧
    (switchFormType t f).name = f.name ∧
    (switchFormType t f).email = f.email ∧
    (switchFormType t f).modelName = f.modelName ∧
    (switchFormType t f).modelProvider = f.modelProvider ∧
    (switchFormType FeedbackType.model_request
      (switchFormType FeedbackType.bug_report
        (updateMeta "use_case" v f))).meta = [] := by
  have hs : switchFormType t f = formTypeResetEffect { f with formType := t } := by
    unfold switchFormType
    rw [if_neg ht]
  set g := switchFormType FeedbackType.bug_report (updateMeta "use_case" v f) with hg
  have hs2 : g.formType = FeedbackType.bug_report := by
    rw [hg]
    unfold switchFormType
    by_cases h1 : FeedbackType.bug_report = (updateMeta "use_case" v f).formType
    · rw [if_pos h1]
      exact h1.symm
    · rw [if_neg h1]
      rfl
  have hs3 : switchFormType FeedbackType.model_request g
      = formTypeResetEffect { g with formType := FeedbackType.model_request } := by
    unfold switchFormType
    rw [if_neg (by rw [hs2]; decide)]
  rw [hs, hs3]
  exact ⟨rfl, rfl, rfl, rfl, rfl, rfl, rfl, rfl, rfl, rfl, rfl⟩

/-- A concrete filled-in model-request form for the type-switch witness. -/
def sampleForm : ModalForm :=
  { formType := FeedbackType.model_request, title := "T", description := "D",
    modelName := "m", modelProvider := "p", name := "n", email := "e",
    meta := [("use_case", "x")], referenceUrl := "http", environment := "local",
    fileAttachments := [metaA] }

/-- C8 witness at a concrete form in the model-request state. -/
theorem C8_type_switch_clears_witness :
    (switchFormType FeedbackType.bug_report sampleForm).meta = [] ∧
    (switchFormType FeedbackType.bug_report sampleForm).referenceUrl = "" ∧
    (switchFormType FeedbackType.bug_report sampleForm).fileAttachments = [] ∧
    (switchFormType FeedbackType.bug_report sampleForm).formType
      = FeedbackType.bug_report ∧
    (switchFormType FeedbackType.bug_report sampleForm).title = sampleForm.title ∧
    (switchFormType FeedbackType.bug_report sampleForm).description
      = sampleForm.description ∧
    (switchFormType FeedbackType.bug_report sampleForm).name = sampleForm.name ∧
    (switchFormType FeedbackType.bug_report sampleForm).email = sampleForm.email ∧
    (switchFormType FeedbackType.bug_report sampleForm).modelName
      = sampleForm.modelName ∧
    (switchFormType FeedbackType.bug_report sampleForm).modelProvider
      = sampleForm.modelProvider ∧
    (switchFormType FeedbackType.model_request
      (switchFormType FeedbackType.bug_report
        (updateMeta "use_case" "chat" sampleForm))).meta = [] := by
  exact C8_type_switch_clears sampleForm FeedbackType.bug_report "chat" (by decide)
